import Mathlib

/-!
Verification of the AdminJS browser-side ApiClient (src/unnamed/part_000).

The client builds axios request configurations from structured parameters,
manages a CSRF token cached in the cookie named sk, and attaches the token
as the X-Csrf-Token header on mutating calls.  The embedding below models
the request configuration handed to the transport library (url, method,
headers, body, params) and the cookie / token state, faithfully following
the source.  The transport library itself, the browser cookie jar and the
token endpoint are external collaborators and are modelled as parameters:
the endpoint as an Except value describing its outcome, the cookie jar as
an association list of name/value pairs (the document.cookie setter plus
the regex-based getCookie lookup compose to exactly such a read after the
encode/decode round trip), the transport as a function from requests to
responses.
-/

namespace AdminApi

/-- JavaScript values as far as truthiness and forwarding are concerned.
Used for the data payload of action calls, whose only role in the client
logic is its truthiness (it is otherwise forwarded verbatim). -/
inductive JSValue where
  | undef
  | jsNull
  | bool (b : Bool)
  | num (n : Int)
  | str (s : String)
  | obj
deriving DecidableEq, Repr

/-- JavaScript truthiness: undefined, null, false, 0 and the empty string
are falsy; objects are truthy. -/
def JSValue.truthy : JSValue → Bool
  | .undef => false
  | .jsNull => false
  | .bool b => b
  | .num n => decide (n ≠ 0)
  | .str s => !s.isEmpty
  | .obj => true

/-- Truthiness of an optional string (a JS value that is a string or
undefined): truthy exactly when present and non-empty. -/
def optStrTruthy : Option String → Bool
  | some s => !s.isEmpty
  | none => false

/-- Uppercase hexadecimal digit for a value below 16. -/
def hexDigitChar (n : Nat) : Char :=
  if n < 10 then Char.ofNat (48 + n) else Char.ofNat (55 + n)

/-- UTF-8 byte sequence of a character, as used by encodeURIComponent. -/
def utf8Bytes (c : Char) : List Nat :=
  let n := c.toNat
  if n < 128 then [n]
  else if n < 2048 then [192 + n / 64, 128 + n % 64]
  else if n < 65536 then [224 + n / 4096, 128 + (n / 64) % 64, 128 + n % 64]
  else [240 + n / 262144, 128 + (n / 4096) % 64, 128 + (n / 64) % 64, 128 + n % 64]

/-- Percent-encoding of one byte, with uppercase hexadecimal digits. -/
def percentByte (b : Nat) : String :=
  String.singleton (Char.ofNat 37) ++ String.singleton (hexDigitChar (b / 16))
    ++ String.singleton (hexDigitChar (b % 16))

/-- Characters left intact by encodeURIComponent: ASCII letters, digits,
and the characters hyphen, underscore, dot, exclamation mark, tilde,
asterisk, apostrophe and parentheses. -/
def isUriUnreserved (c : Char) : Bool :=
  let n := c.toNat
  decide (65 ≤ n ∧ n ≤ 90) || decide (97 ≤ n ∧ n ≤ 122) || decide (48 ≤ n ∧ n ≤ 57) ||
  decide (n = 45) || decide (n = 95) || decide (n = 46) || decide (n = 33) ||
  decide (n = 126) || decide (n = 42) || decide (n = 39) || decide (n = 40) || decide (n = 41)

/-- The browser primitive encodeURIComponent: unreserved characters are
kept, every other character is percent-encoded byte-wise in UTF-8. -/
def encodeURIComponent (s : String) : String :=
  s.toList.foldl
    (fun acc c =>
      acc ++ (if isUriUnreserved c then String.singleton c
              else ((utf8Bytes c).map percentByte).foldl (fun a b => a ++ b) ""))
    ""

/-- A JavaScript Date value.  Its two external serializations are carried
as fields: toUTCString (used by setCookie for the expires option) and the
default string conversion. -/
structure JsDate where
  utcString : String
  plainString : String
deriving DecidableEq, Repr

/-- Values a cookie option can take in the client: strings, Date objects,
numbers (max-age) and booleans (bare flags such as secure). -/
inductive CookieVal where
  | str (s : String)
  | date (d : JsDate)
  | num (n : Int)
  | bool (b : Bool)
deriving DecidableEq, Repr

/-- JavaScript default stringification of a cookie option value, as used
when the option is appended with an equals sign. -/
def serializeCookieVal : CookieVal → String
  | .str s => s
  | .date d => d.plainString
  | .num n => toString n
  | .bool b => if b then "true" else "false"

/-- JavaScript object update: assigning one key.  If the key is present
its value is replaced in place, otherwise the pair is appended; this is
the semantics of spreading into an object literal. -/
def objAssign (o : List (String × CookieVal)) (k : String) (v : CookieVal) :
    List (String × CookieVal) :=
  if o.any (fun p => p.1 == k) then o.map (fun p => if p.1 == k then (k, v) else p)
  else o ++ [(k, v)]

/-- Spreading a list of entries into a base object, key by key. -/
def objSpread (base : List (String × CookieVal)) (opts : List (String × CookieVal)) :
    List (String × CookieVal) :=
  opts.foldl (fun acc p => objAssign acc p.1 p.2) base

/-- The conversion setCookie applies to the expires option: a Date value
is replaced by its toUTCString form. -/
def convertExpires : CookieVal → CookieVal
  | .date d => .str d.utcString
  | v => v

/-- The cookie string setCookie assigns to document.cookie: the path
option defaults to slash via an object spread, a Date expires is converted
to its UTC string, the encoded name and value come first, and every option
follows as semicolon-space, key, and unless the value is the boolean true,
an equals sign and the stringified value. -/
def setCookieString (name value : String) (options : List (String × CookieVal)) : String :=
  ((objSpread [("path", CookieVal.str "/")] options).map
      (fun p => if p.1 == "expires" then (p.1, convertExpires p.2) else p)).foldl
    (fun acc p =>
      acc ++ "; " ++ p.1 ++
        (if p.2 = CookieVal.bool true then "" else "=" ++ serializeCookieVal p.2))
    (encodeURIComponent name ++ "=" ++ encodeURIComponent value)

/-- Lookup in the modelled browser cookie jar, the composite of the
document.cookie read and the regex match performed by getCookie. -/
def getCookie (jar : List (String × String)) (name : String) : Option String :=
  (jar.find? (fun p => p.1 == name)).map (fun p => p.2)

/-- Update of the modelled browser cookie jar performed by assigning a
serialized cookie string to document.cookie: the named cookie is replaced
or inserted. -/
def cookieJarSet (jar : List (String × String)) (name value : String) :
    List (String × String) :=
  if jar.any (fun p => p.1 == name) then
    jar.map (fun p => if p.1 == name then (name, value) else p)
  else jar ++ [(name, value)]

/-- Response of the token endpoint: the field sk and the field named
max-age-seconds. -/
structure CsrfTokenResponse where
  sk : String
  maxAgeSeconds : Int
deriving DecidableEq, Repr

/-- Observable state threaded through the client: the browser cookie jar,
the log of serialized cookie strings assigned to document.cookie, and the
number of requests made to the token endpoint. -/
structure ClientState where
  jar : List (String × String)
  cookieWrites : List String
  csrfCalls : Nat
deriving DecidableEq, Repr

/-- One request to the token endpoint and the processing of its outcome:
the call is counted; on success the sk value is stored in the cookie named
sk with a max-age option equal to the max-age-seconds field and returned;
on failure the error is rewrapped with the message prefix used by the
source. -/
def fetchToken (endpoint : Except String CsrfTokenResponse) (st : ClientState) :
    Except String String × ClientState :=
  let st1 : ClientState := { st with csrfCalls := st.csrfCalls + 1 }
  match endpoint with
  | Except.ok resp =>
      (Except.ok resp.sk,
       { st1 with
          jar := cookieJarSet st1.jar "sk" resp.sk,
          cookieWrites := st1.cookieWrites ++
            [setCookieString "sk" resp.sk [("max-age", CookieVal.num resp.maxAgeSeconds)]] })
  | Except.error e => (Except.error ("CSRF token error: " ++ e), st1)

/-- The getToken method: a truthy cookie named sk is returned as is with
no network activity; otherwise the token endpoint is consulted once. -/
def getToken (endpoint : Except String CsrfTokenResponse) (st : ClientState) :
    Except String String × ClientState :=
  match getCookie st.jar "sk" with
  | some v => if v.isEmpty then fetchToken endpoint st else (Except.ok v, st)
  | none => fetchToken endpoint st

/-- JavaScript object update on a string-valued header object, modelled
with last-binding-wins lookup semantics: setting a key appends the
binding, looking a key up returns the most recent binding. -/
def headerSet (o : List (String × String)) (k v : String) : List (String × String) :=
  o ++ [(k, v)]

/-- Lookup in a header object: the most recently set binding wins, which
is the value the JavaScript object holds for the key. -/
def headerGet (o : List (String × String)) (k : String) : Option String :=
  (o.reverse.find? (fun p => p.1 == k)).map (fun p => p.2)

/-- The transport-level remainder of the options of an action call, the
axiosParams rest object of the source destructuring: an optional explicit
HTTP method, caller-supplied headers and caller-supplied query params. -/
structure TransportOptions where
  methodOpt : Option String := none
  headers : List (String × String) := []
  params : List (String × String) := []
deriving DecidableEq, Repr

/-- The request configuration handed to the transport client: url, final
method after the spread of the transport options over the computed method,
final headers, the forwarded data payload and the query params. -/
structure Request where
  url : String
  method : String
  headers : List (String × String)
  body : JSValue
  params : List (String × String)
deriving DecidableEq, Repr

/-- Options of a resourceAction call after destructuring. -/
structure ResourceActionOptions where
  resourceId : String
  actionName : String
  data : JSValue := JSValue.undef
  query : Option String := none
  transport : TransportOptions := {}
deriving DecidableEq, Repr

/-- Options of a recordAction call after destructuring. -/
structure RecordActionOptions where
  resourceId : String
  recordId : String
  actionName : String
  data : JSValue := JSValue.undef
  transport : TransportOptions := {}
deriving DecidableEq, Repr

/-- Options of a bulkAction call after destructuring; recordIds is an
optional list, the source guards it with a disjunction against the empty
list. -/
structure BulkActionOptions where
  resourceId : String
  recordIds : Option (List String) := none
  actionName : String
  data : JSValue := JSValue.undef
  transport : TransportOptions := {}
deriving DecidableEq, Repr

/-- Method computed by resourceAction and recordAction from the data
payload: POST when data is truthy, GET otherwise. -/
def methodForData (data : JSValue) : String :=
  if data.truthy then "POST" else "GET"

/-- Method computed by bulkAction: the truthiness of the disjunction of
the explicit transport method and the data payload selects POST, with GET
otherwise. -/
def bulkMethod (o : BulkActionOptions) : String :=
  if optStrTruthy o.transport.methodOpt || o.data.truthy then "POST" else "GET"

/-- Uppercasing of a method string, the toUpperCase call of the source,
modelled character-wise. -/
def toUpperCase (s : String) : String := String.mk (s.data.map Char.toUpper)

/-- The CSRF step shared by the three action methods: when the computed
method is POST, getToken is awaited and its token written over any
caller-supplied X-Csrf-Token header; a getToken failure rejects the whole
operation and no request is issued. -/
def withCsrf (endpoint : Except String CsrfTokenResponse) (st : ClientState)
    (headers : List (String × String)) :
    Bool → Except String (List (String × String) × ClientState)
  | false => Except.ok (headers, st)
  | true =>
      match getToken endpoint st with
      | (Except.ok tok, st1) => Except.ok (headerSet headers "X-Csrf-Token" tok, st1)
      | (Except.error e, _) => Except.error e

/-- URL built by resourceAction: the actions path, with the URL-encoded
query appended as one extra path segment when the query is truthy. -/
def resourceUrl (o : ResourceActionOptions) : String :=
  if optStrTruthy o.query then
    "/api/resources/" ++ o.resourceId ++ "/actions/" ++ o.actionName ++ "/"
      ++ encodeURIComponent (o.query.getD "")
  else "/api/resources/" ++ o.resourceId ++ "/actions/" ++ o.actionName

/-- The resourceAction method: computes the method from data, attaches the
CSRF header on POST, appends the encoded query segment, and issues the
request configuration in which the spread transport options override the
computed method. -/
def resourceAction (endpoint : Except String CsrfTokenResponse) (st : ClientState)
    (o : ResourceActionOptions) : Except String (Request × ClientState) :=
  match withCsrf endpoint st o.transport.headers (methodForData o.data == "POST") with
  | Except.error e => Except.error e
  | Except.ok (hs, st1) =>
      Except.ok
        ({ url := resourceUrl o,
           method := o.transport.methodOpt.getD (methodForData o.data),
           headers := hs, body := o.data, params := o.transport.params }, st1)

/-- The recordAction method: same method selection and CSRF rule as
resourceAction, records path, no query segment. -/
def recordAction (endpoint : Except String CsrfTokenResponse) (st : ClientState)
    (o : RecordActionOptions) : Except String (Request × ClientState) :=
  match withCsrf endpoint st o.transport.headers (methodForData o.data == "POST") with
  | Except.error e => Except.error e
  | Except.ok (hs, st1) =>
      Except.ok
        ({ url := "/api/resources/" ++ o.resourceId ++ "/records/" ++ o.recordId
                    ++ "/" ++ o.actionName,
           method := o.transport.methodOpt.getD (methodForData o.data),
           headers := hs, body := o.data, params := o.transport.params }, st1)

/-- The bulkAction method: disjunctive method selection, uppercase
comparison against POST for the CSRF step, bulk path, and a params object
holding recordIds joined by commas that is written after the spread and
therefore always wins. -/
def bulkAction (endpoint : Except String CsrfTokenResponse) (st : ClientState)
    (o : BulkActionOptions) : Except String (Request × ClientState) :=
  match withCsrf endpoint st o.transport.headers (toUpperCase (bulkMethod o) == "POST") with
  | Except.error e => Except.error e
  | Except.ok (hs, st1) =>
      Except.ok
        ({ url := "/api/resources/" ++ o.resourceId ++ "/bulk/" ++ o.actionName,
           method := o.transport.methodOpt.getD (bulkMethod o),
           headers := hs, body := o.data,
           params := [("recordIds", String.intercalate "," (o.recordIds.getD []))] }, st1)

/-- The response body shape searchRecords unwraps: the records field of
the data of the transport response. -/
structure SearchResponse where
  records : List String
deriving DecidableEq, Repr

/-- The resourceAction options searchRecords builds: action named search,
the query passed through, no data, and a searchProperty param exactly when
that argument is truthy (the conditional spread of the source). -/
def searchOptions (resourceId query : String) (searchProperty : Option String) :
    ResourceActionOptions :=
  { resourceId := resourceId, actionName := "search", data := JSValue.undef,
    query := some query,
    transport :=
      { methodOpt := none, headers := [],
        params :=
          if optStrTruthy searchProperty then
            [("searchProperty", searchProperty.getD "")]
          else [] } }

/-- The request a searchRecords call hands to the transport client: the
request resourceAction issues for the search options, a GET with no body
and no CSRF header. -/
def searchRequest (resourceId query : String) (searchProperty : Option String) : Request :=
  { url := resourceUrl (searchOptions resourceId query searchProperty),
    method := "GET", headers := [], body := JSValue.undef,
    params := (searchOptions resourceId query searchProperty).transport.params }

/-- The searchRecords method: outside a browser context it returns the
empty list at once; otherwise it delegates to resourceAction with the
action named search, passing the query through and a searchProperty param
when that is truthy, and returns the records of the transport response.
The issued request is reported alongside so the absence of network
activity in the server branch is observable. -/
def searchRecords (isOnServer : Bool) (endpoint : Except String CsrfTokenResponse)
    (transport : Request → SearchResponse) (st : ClientState)
    (resourceId : String) (query : String) (searchProperty : Option String) :
    Except String (List String × Option Request × ClientState) :=
  if isOnServer then Except.ok ([], none, st)
  else
    match resourceAction endpoint st (searchOptions resourceId query searchProperty) with
    | Except.error e => Except.error e
    | Except.ok (req, st1) => Except.ok ((transport req).records, some req, st1)

/-- Fixture: fresh client state with an empty cookie jar. -/
def st0 : ClientState := { jar := [], cookieWrites := [], csrfCalls := 0 }

/-- Fixture: client state whose cookie jar already holds the token cookie. -/
def stTok : ClientState := { jar := [("sk", "tok")], cookieWrites := [], csrfCalls := 0 }

/-- Fixture: token endpoint answering with the token abc valid for an hour. -/
def okEndpoint : Except String CsrfTokenResponse :=
  Except.ok { sk := "abc", maxAgeSeconds := 3600 }

theorem headerGet_headerSet (o : List (String × String)) (k v : String) :
    headerGet (headerSet o k v) k = some v := by
  simp [headerGet, headerSet, List.find?]

theorem getCookie_cookieJarSet_self (jar : List (String × String)) (n v : String) :
    getCookie (cookieJarSet jar n v) n = some v := by
  induction jar with
  | nil => simp [getCookie, cookieJarSet]
  | cons hd tl ih =>
      by_cases hhd : (hd.1 == n) = true
      · have he : hd.1 = n := by simpa using hhd
        simp [getCookie, cookieJarSet, List.any_cons, hhd, he, List.find?]
      · by_cases hany : tl.any (fun p => p.1 == n) = true
        · have htl : cookieJarSet tl n v = tl.map (fun p => if p.1 == n then (n, v) else p) := by
            simp [cookieJarSet, hany]
          simp only [getCookie, cookieJarSet, List.any_cons, hhd, Bool.false_or, hany,
            if_true, List.map_cons, if_neg hhd, List.find?, hhd]
          have := ih
          rw [getCookie, htl] at this
          simpa [List.find?, hhd] using this
        · have htl : cookieJarSet tl n v = tl ++ [(n, v)] := by
            simp [cookieJarSet, hany]
          simp only [getCookie, cookieJarSet, List.any_cons, hhd, Bool.false_or, hany,
            if_false, List.cons_append, List.find?, hhd]
          have := ih
          rw [getCookie, htl] at this
          simpa [List.find?, hhd] using this

theorem withCsrf_post (endpoint : Except String CsrfTokenResponse) (st st1 : ClientState)
    (hs : List (String × String)) (tok : String)
    (ht : getToken endpoint st = (Except.ok tok, st1)) :
    withCsrf endpoint st hs true = Except.ok (headerSet hs "X-Csrf-Token" tok, st1) := by
  unfold withCsrf
  rw [ht]

theorem resourceAction_ok (endpoint : Except String CsrfTokenResponse) (st : ClientState)
    (o : ResourceActionOptions) (req : Request) (st' : ClientState)
    (h : resourceAction endpoint st o = Except.ok (req, st')) :
    req.url = resourceUrl o ∧
    req.method = o.transport.methodOpt.getD (methodForData o.data) ∧
    req.body = o.data ∧ req.params = o.transport.params ∧
    withCsrf endpoint st o.transport.headers (methodForData o.data == "POST") =
      Except.ok (req.headers, st') := by
  unfold resourceAction at h
  cases hW : withCsrf endpoint st o.transport.headers (methodForData o.data == "POST") with
  | error e => rw [hW] at h; exact absurd h (by simp)
  | ok p =>
      obtain ⟨hs, st1⟩ := p
      rw [hW] at h
      simp only [Except.ok.injEq, Prod.mk.injEq] at h
      obtain ⟨hreq, hst⟩ := h
      subst hst
      rw [← hreq]
      exact ⟨rfl, rfl, rfl, rfl, rfl⟩

theorem recordAction_ok (endpoint : Except String CsrfTokenResponse) (st : ClientState)
    (o : RecordActionOptions) (req : Request) (st' : ClientState)
    (h : recordAction endpoint st o = Except.ok (req, st')) :
    req.url = "/api/resources/" ++ o.resourceId ++ "/records/" ++ o.recordId
        ++ "/" ++ o.actionName ∧
    req.method = o.transport.methodOpt.getD (methodForData o.data) ∧
    req.body = o.data ∧ req.params = o.transport.params ∧
    withCsrf endpoint st o.transport.headers (methodForData o.data == "POST") =
      Except.ok (req.headers, st') := by
  unfold recordAction at h
  cases hW : withCsrf endpoint st o.transport.headers (methodForData o.data == "POST") with
  | error e => rw [hW] at h; exact absurd h (by simp)
  | ok p =>
      obtain ⟨hs, st1⟩ := p
      rw [hW] at h
      simp only [Except.ok.injEq, Prod.mk.injEq] at h
      obtain ⟨hreq, hst⟩ := h
      subst hst
      rw [← hreq]
      exact ⟨rfl, rfl, rfl, rfl, rfl⟩

theorem bulkAction_ok (endpoint : Except String CsrfTokenResponse) (st : ClientState)
    (o : BulkActionOptions) (req : Request) (st' : ClientState)
    (h : bulkAction endpoint st o = Except.ok (req, st')) :
    req.url = "/api/resources/" ++ o.resourceId ++ "/bulk/" ++ o.actionName ∧
    req.method = o.transport.methodOpt.getD (bulkMethod o) ∧
    req.body = o.data ∧
    req.params = [("recordIds", String.intercalate "," (o.recordIds.getD []))] ∧
    withCsrf endpoint st o.transport.headers (toUpperCase (bulkMethod o) == "POST") =
      Except.ok (req.headers, st') := by
  unfold bulkAction at h
  cases hW : withCsrf endpoint st o.transport.headers (toUpperCase (bulkMethod o) == "POST") with
  | error e => rw [hW] at h; exact absurd h (by simp)
  | ok p =>
      obtain ⟨hs, st1⟩ := p
      rw [hW] at h
      simp only [Except.ok.injEq, Prod.mk.injEq] at h
      obtain ⟨hreq, hst⟩ := h
      subst hst
      rw [← hreq]
      exact ⟨rfl, rfl, rfl, rfl, rfl⟩

theorem post_toUpper : toUpperCase "POST" = "POST" := rfl

/-- C1 is false as stated: a resourceAction call with no data but with an
explicit method PUT in its transport options issues a request whose method
is PUT, not GET, because the transport-options spread placed after the
computed method overrides it. -/
theorem C1_counterexample :
    (resourceAction okEndpoint st0
        { resourceId := "Comments", actionName := "list", data := JSValue.undef, query := none,
          transport := { methodOpt := some "PUT", headers := [], params := [] } }).map
      (fun p => p.1.method) = Except.ok "PUT" ∧ "PUT" ≠ "GET" :=
  ⟨rfl, by decide⟩

/-- C1 (amended): for every resourceAction and recordAction call, the
issued method is POST iff data is truthy and GET otherwise, unless the
transport options carry an explicit method, which then overrides the
computed one in the issued request. -/
theorem C1_method_selection (endpoint : Except String CsrfTokenResponse) (st : ClientState) :
    (∀ (o : ResourceActionOptions) (req : Request) (st' : ClientState),
        resourceAction endpoint st o = Except.ok (req, st') →
        req.method = o.transport.methodOpt.getD (if o.data.truthy then "POST" else "GET")) ∧
    (∀ (o : RecordActionOptions) (req : Request) (st' : ClientState),
        recordAction endpoint st o = Except.ok (req, st') →
        req.method = o.transport.methodOpt.getD (if o.data.truthy then "POST" else "GET")) := by
  constructor
  · intro o req st' h
    exact (resourceAction_ok endpoint st o req st' h).2.1
  · intro o req st' h
    exact (recordAction_ok endpoint st o req st' h).2.1

/-- C1 witness: the amended statement applied to a concrete dataless
resourceAction call, whose issued method is GET. -/
theorem C1_method_selection_witness :
    ({ url := "/api/resources/X/actions/list", method := "GET", headers := [],
       body := JSValue.undef, params := [] } : Request).method =
      (none : Option String).getD (if JSValue.undef.truthy then "POST" else "GET") :=
  (C1_method_selection okEndpoint st0).1
    { resourceId := "X", actionName := "list", data := JSValue.undef, query := none,
      transport := { methodOpt := none, headers := [], params := [] } }
    { url := "/api/resources/X/actions/list", method := "GET", headers := [],
      body := JSValue.undef, params := [] }
    st0 rfl

/-- C2 is false as stated: a bulkAction call with an explicit method
DELETE and no data computes POST for the CSRF step but issues the request
with method DELETE, because the transport-options spread placed after the
computed method overrides it. -/
theorem C2_counterexample :
    (bulkAction okEndpoint stTok
        { resourceId := "Comments", recordIds := some ["1"], actionName := "delete",
          data := JSValue.undef,
          transport := { methodOpt := some "DELETE", headers := [], params := [] } }).map
      (fun p => p.1.method) = Except.ok "DELETE" ∧ "DELETE" ≠ "POST" :=
  ⟨rfl, by decide⟩

/-- C2 (amended): the method bulkAction computes, which governs the CSRF
step, is POST exactly when an explicit transport method or the data
payload is truthy, and GET otherwise; the issued request carries this
computed method unless an explicit method is set, which then overrides it. -/
theorem C2_bulk_method (endpoint : Except String CsrfTokenResponse) (st : ClientState) :
    (∀ o : BulkActionOptions,
        (bulkMethod o = "POST" ↔
          (optStrTruthy o.transport.methodOpt = true ∨ o.data.truthy = true))) ∧
    (∀ (o : BulkActionOptions) (req : Request) (st' : ClientState),
        bulkAction endpoint st o = Except.ok (req, st') →
        req.method = o.transport.methodOpt.getD (bulkMethod o)) := by
  constructor
  · intro o
    unfold bulkMethod
    cases h1 : optStrTruthy o.transport.methodOpt <;> cases h2 : o.data.truthy <;>
      simp [h1, h2]
  · intro o req st' h
    exact (bulkAction_ok endpoint st o req st' h).2.1

/-- C2 witness: the amended statement applied to a concrete bulkAction
call with no explicit method and no data, whose issued method is GET. -/
theorem C2_bulk_method_witness :
    ({ url := "/api/resources/C/bulk/a", method := "GET", headers := [],
       body := JSValue.undef, params := [("recordIds", "")] } : Request).method =
      (none : Option String).getD
        (bulkMethod
          { resourceId := "C", recordIds := none, actionName := "a", data := JSValue.undef,
            transport := { methodOpt := none, headers := [], params := [] } }) :=
  (C2_bulk_method okEndpoint st0).2
    { resourceId := "C", recordIds := none, actionName := "a", data := JSValue.undef,
      transport := { methodOpt := none, headers := [], params := [] } }
    { url := "/api/resources/C/bulk/a", method := "GET", headers := [],
      body := JSValue.undef, params := [("recordIds", "")] }
    st0 rfl

/-- C3: getToken returns the cookie-resident value with no state change
and no endpoint call when the cookie named sk is present and truthy; when
the cookie is absent it performs exactly one endpoint call, writes the sk
cookie to the returned sk value with a max-age option equal to the
max-age-seconds of the response, and returns that value, after which the
cookie read yields the stored value. -/
theorem C3_getToken_cookie_cache (endpoint : Except String CsrfTokenResponse)
    (st : ClientState) :
    (∀ v : String, getCookie st.jar "sk" = some v → v.isEmpty = false →
        getToken endpoint st = (Except.ok v, st)) ∧
    (∀ resp : CsrfTokenResponse, getCookie st.jar "sk" = none →
        endpoint = Except.ok resp →
        getToken endpoint st =
          (Except.ok resp.sk,
           { jar := cookieJarSet st.jar "sk" resp.sk,
             cookieWrites := st.cookieWrites ++
               [setCookieString "sk" resp.sk
                 [("max-age", CookieVal.num resp.maxAgeSeconds)]],
             csrfCalls := st.csrfCalls + 1 }) ∧
        getCookie (cookieJarSet st.jar "sk" resp.sk) "sk" = some resp.sk) := by
  constructor
  · intro v hv hne
    unfold getToken
    rw [hv]
    simp [hne]
  · intro resp hns hep
    subst hep
    unfold getToken
    rw [hns]
    exact ⟨rfl, getCookie_cookieJarSet_self st.jar "sk" resp.sk⟩

/-- C3 witness: with an empty jar and the endpoint answering abc with
max-age-seconds 3600, getToken returns abc, the call counter is one, and
the serialized cookie write carries max-age 3600. -/
theorem C3_getToken_cookie_cache_witness :
    getToken okEndpoint st0 =
      (Except.ok "abc",
       { jar := [("sk", "abc")], cookieWrites := ["sk=abc; path=/; max-age=3600"],
         csrfCalls := 1 }) ∧
    getCookie [("sk", "abc")] "sk" = some "abc" := by
  have h := (C3_getToken_cookie_cache okEndpoint st0).2
    { sk := "abc", maxAgeSeconds := 3600 } rfl rfl
  exact ⟨h.1, h.2⟩

/-- C5: when the sk cookie is absent and the token endpoint fails, the
getToken call makes exactly one endpoint request, writes no cookie, and
rejects with a single wrapped error whose message interpolates the
original cause after the prefix used by the source. -/
theorem C5_token_error_wrapped (st : ClientState) (e : String)
    (h : getCookie st.jar "sk" = none) :
    getToken (Except.error e) st =
      (Except.error ("CSRF token error: " ++ e),
       { st with csrfCalls := st.csrfCalls + 1 }) := by
  unfold getToken
  rw [h]
  rfl

/-- C5 witness: the wrapped rejection at a concrete transport failure. -/
theorem C5_token_error_wrapped_witness :
    getToken (Except.error "Error: Network Error") st0 =
      (Except.error "CSRF token error: Error: Network Error",
       { jar := [], cookieWrites := [], csrfCalls := 1 }) :=
  C5_token_error_wrapped st0 "Error: Network Error" rfl

/-- C4 is false as stated: a resourceAction call with no data and an
explicit POST in its transport options issues a request whose method is
POST yet carries no X-Csrf-Token header, because the CSRF branch keys on
the computed method, which is GET here. -/
theorem C4_counterexample :
    (resourceAction okEndpoint st0
        { resourceId := "Comments", actionName := "list", data := JSValue.undef, query := none,
          transport := { methodOpt := some "POST", headers := [], params := [] } }).map
      (fun p => (p.1.method, headerGet p.1.headers "X-Csrf-Token")) =
      Except.ok ("POST", none) := rfl

/-- C4 (amended): every request built in the computed-POST branch, that
is, with truthy data for resourceAction and recordAction and with a POST
bulk-computed method for bulkAction, carries the X-Csrf-Token header equal
to the token getToken returns for the call, overriding any caller-supplied
X-Csrf-Token header. -/
theorem C4_csrf_header (endpoint : Except String CsrfTokenResponse) (st st1 : ClientState)
    (tok : String) (ht : getToken endpoint st = (Except.ok tok, st1)) :
    (∀ (o : ResourceActionOptions) (req : Request) (st' : ClientState),
        o.data.truthy = true →
        resourceAction endpoint st o = Except.ok (req, st') →
        headerGet req.headers "X-Csrf-Token" = some tok) ∧
    (∀ (o : RecordActionOptions) (req : Request) (st' : ClientState),
        o.data.truthy = true →
        recordAction endpoint st o = Except.ok (req, st') →
        headerGet req.headers "X-Csrf-Token" = some tok) ∧
    (∀ (o : BulkActionOptions) (req : Request) (st' : ClientState),
        bulkMethod o = "POST" →
        bulkAction endpoint st o = Except.ok (req, st') →
        headerGet req.headers "X-Csrf-Token" = some tok) := by
  refine ⟨?_, ?_, ?_⟩
  · intro o req st' hd h
    have hW := (resourceAction_ok endpoint st o req st' h).2.2.2.2
    have hp : (methodForData o.data == "POST") = true := by simp [methodForData, hd]
    rw [hp, withCsrf_post endpoint st st1 o.transport.headers tok ht] at hW
    simp only [Except.ok.injEq, Prod.mk.injEq] at hW
    rw [← hW.1]
    exact headerGet_headerSet o.transport.headers "X-Csrf-Token" tok
  · intro o req st' hd h
    have hW := (recordAction_ok endpoint st o req st' h).2.2.2.2
    have hp : (methodForData o.data == "POST") = true := by simp [methodForData, hd]
    rw [hp, withCsrf_post endpoint st st1 o.transport.headers tok ht] at hW
    simp only [Except.ok.injEq, Prod.mk.injEq] at hW
    rw [← hW.1]
    exact headerGet_headerSet o.transport.headers "X-Csrf-Token" tok
  · intro o req st' hb h
    have hW := (bulkAction_ok endpoint st o req st' h).2.2.2.2
    have hp : (toUpperCase (bulkMethod o) == "POST") = true := by
      rw [hb, post_toUpper]
      simp
    rw [hp, withCsrf_post endpoint st st1 o.transport.headers tok ht] at hW
    simp only [Except.ok.injEq, Prod.mk.injEq] at hW
    rw [← hW.1]
    exact headerGet_headerSet o.transport.headers "X-Csrf-Token" tok

/-- C4 witness: a concrete POST-computed resourceAction call whose issued
headers hold the fresh token after a caller-supplied stale value. -/
theorem C4_csrf_header_witness :
    headerGet [("X-Csrf-Token", "stale"), ("X-Csrf-Token", "abc")] "X-Csrf-Token" =
      some "abc" :=
  (C4_csrf_header okEndpoint st0
      { jar := [("sk", "abc")], cookieWrites := ["sk=abc; path=/; max-age=3600"],
        csrfCalls := 1 }
      "abc" rfl).1
    { resourceId := "Comments", actionName := "edit", data := JSValue.obj, query := none,
      transport := { methodOpt := none, headers := [("X-Csrf-Token", "stale")], params := [] } }
    { url := "/api/resources/Comments/actions/edit", method := "POST",
      headers := [("X-Csrf-Token", "stale"), ("X-Csrf-Token", "abc")],
      body := JSValue.obj, params := [] }
    { jar := [("sk", "abc")], cookieWrites := ["sk=abc; path=/; max-age=3600"],
      csrfCalls := 1 }
    rfl rfl

/-- C6: the recordIds query parameter of every issued bulkAction request
equals the comma-joined input list, the empty or absent list producing the
empty string. -/
theorem C6_bulk_recordIds (endpoint : Except String CsrfTokenResponse) (st : ClientState)
    (o : BulkActionOptions) (req : Request) (st' : ClientState)
    (h : bulkAction endpoint st o = Except.ok (req, st')) :
    req.params = [("recordIds", String.intercalate "," (o.recordIds.getD []))] ∧
    (o.recordIds.getD [] = [] → req.params = [("recordIds", "")]) := by
  have h1 := (bulkAction_ok endpoint st o req st' h).2.2.2.1
  refine ⟨h1, fun he => ?_⟩
  rw [h1, he]
  rfl

/-- C6 witness: a concrete bulk call with record identifiers 1 and 2
carries the parameter value joining them with a comma. -/
theorem C6_bulk_recordIds_witness :
    ([("recordIds", "1,2")] : List (String × String)) =
      [("recordIds", String.intercalate "," ["1", "2"])] ∧
    ((["1", "2"] : List String) = [] →
      ([("recordIds", "1,2")] : List (String × String)) = [("recordIds", "")]) :=
  C6_bulk_recordIds okEndpoint st0
    { resourceId := "C", recordIds := some ["1", "2"], actionName := "a",
      data := JSValue.undef,
      transport := { methodOpt := none, headers := [], params := [] } }
    { url := "/api/resources/C/bulk/a", method := "GET", headers := [],
      body := JSValue.undef, params := [("recordIds", "1,2")] }
    st0 rfl

/-- C7: searchRecords returns the empty list and issues no request outside
a browser context, the state untouched; otherwise it issues the GET-shaped
search resource action and returns the records field of the data of the
transport response. -/
theorem C7_search_records (endpoint : Except String CsrfTokenResponse)
    (transport : Request → SearchResponse) (st : ClientState)
    (rid q : String) (sp : Option String) :
    searchRecords true endpoint transport st rid q sp = Except.ok ([], none, st) ∧
    searchRecords false endpoint transport st rid q sp =
      Except.ok ((transport (searchRequest rid q sp)).records,
        some (searchRequest rid q sp), st) ∧
    (searchRequest rid q sp).method = "GET" ∧
    (searchRequest rid q sp).url =
      (if optStrTruthy (some q) then
        "/api/resources/" ++ rid ++ "/actions/" ++ "search" ++ "/" ++ encodeURIComponent q
       else "/api/resources/" ++ rid ++ "/actions/" ++ "search") := by
  exact ⟨rfl, rfl, rfl, rfl⟩

/-- C8: the URL of every issued resourceAction request is the actions path
of the resource and action identifiers, with the URL-encoded query
appended as one extra path segment exactly when the query is truthy. -/
theorem C8_resource_action_url (endpoint : Except String CsrfTokenResponse) (st : ClientState)
    (o : ResourceActionOptions) (req : Request) (st' : ClientState)
    (h : resourceAction endpoint st o = Except.ok (req, st')) :
    req.url = "/api/resources/" ++ o.resourceId ++ "/actions/" ++ o.actionName ++
      (if optStrTruthy o.query then "/" ++ encodeURIComponent (o.query.getD "") else "") := by
  rw [(resourceAction_ok endpoint st o req st' h).1]
  unfold resourceUrl
  by_cases hq : optStrTruthy o.query = true
  · simp only [hq, if_true]
    rw [String.append_assoc]
  · simp [hq, String.append_empty]

/-- C8 witness: a concrete search call with a query containing a space,
whose issued URL carries the percent-encoded query segment. -/
theorem C8_resource_action_url_witness :
    ("/api/resources/Comments/actions/search/hello%20world" : String) =
      "/api/resources/" ++ "Comments" ++ "/actions/" ++ "search" ++
        (if optStrTruthy (some "hello world") then
          "/" ++ encodeURIComponent ((some "hello world" : Option String).getD "")
         else "") :=
  C8_resource_action_url okEndpoint st0
    { resourceId := "Comments", actionName := "search", data := JSValue.undef,
      query := some "hello world",
      transport := { methodOpt := none, headers := [], params := [] } }
    { url := "/api/resources/Comments/actions/search/hello%20world", method := "GET",
      headers := [], body := JSValue.undef, params := [] }
    st0 rfl

/-- C10: a bulkAction call with a truthy explicit method and falsy data
still resolves the CSRF token and attaches it as the X-Csrf-Token header,
because the computed method is POST, yet the issued request carries the
explicit caller method, which the transport-options spread writes over the
computed one. -/
theorem C10_bulk_explicit_method (endpoint : Except String CsrfTokenResponse)
    (st st1 : ClientState) (o : BulkActionOptions) (m tok : String)
    (hm : o.transport.methodOpt = some m) (hne : m.isEmpty = false)
    (hd : o.data.truthy = false)
    (ht : getToken endpoint st = (Except.ok tok, st1)) :
    bulkAction endpoint st o =
      Except.ok
        ({ url := "/api/resources/" ++ o.resourceId ++ "/bulk/" ++ o.actionName,
           method := m,
           headers := headerSet o.transport.headers "X-Csrf-Token" tok,
           body := o.data,
           params := [("recordIds", String.intercalate "," (o.recordIds.getD []))] }, st1) := by
  have hbm : bulkMethod o = "POST" := by
    unfold bulkMethod
    simp [hm, optStrTruthy, hne, hd]
  unfold bulkAction
  have hcond : (toUpperCase (bulkMethod o) == "POST") = true := by
    rw [hbm, post_toUpper]
    simp
  rw [hcond, withCsrf_post endpoint st st1 o.transport.headers tok ht]
  simp [hm]

/-- C10 witness: a concrete bulk call with explicit method DELETE and no
data issues a DELETE request that carries the X-Csrf-Token header. -/
theorem C10_bulk_explicit_method_witness :
    bulkAction okEndpoint stTok
      { resourceId := "C", recordIds := some ["1", "2"], actionName := "delete",
        data := JSValue.undef,
        transport := { methodOpt := some "DELETE", headers := [], params := [] } } =
      Except.ok
        ({ url := "/api/resources/C/bulk/delete", method := "DELETE",
           headers := [("X-Csrf-Token", "tok")], body := JSValue.undef,
           params := [("recordIds", "1,2")] }, stTok) :=
  C10_bulk_explicit_method okEndpoint stTok stTok
    { resourceId := "C", recordIds := some ["1", "2"], actionName := "delete",
      data := JSValue.undef,
      transport := { methodOpt := some "DELETE", headers := [], params := [] } }
    "DELETE" "tok" rfl rfl rfl rfl

/-- C9: the cookie string setCookie writes defaults the path option to
slash when it is not supplied, serializes an expires option given as a
Date object through its UTC string representation, writes any option whose
value is the boolean true as a bare flag without an equals sign, and
URL-encodes the cookie name and value. -/
theorem C9_set_cookie (n v k : String) (d : JsDate) (hk : k ≠ "path") :
    setCookieString n v [] =
      encodeURIComponent n ++ "=" ++ encodeURIComponent v ++ "; path=/" ∧
    setCookieString n v [("expires", CookieVal.date d)] =
      encodeURIComponent n ++ "=" ++ encodeURIComponent v ++ "; path=/; expires="
        ++ d.utcString ∧
    setCookieString n v [(k, CookieVal.bool true)] =
      encodeURIComponent n ++ "=" ++ encodeURIComponent v ++ "; path=/; " ++ k := by
  refine ⟨?_, ?_, ?_⟩
  · show encodeURIComponent n ++ "=" ++ encodeURIComponent v ++ "; " ++ "path" ++ ("=" ++ "/") =
        encodeURIComponent n ++ "=" ++ encodeURIComponent v ++ "; path=/"
    apply String.ext
    simp only [String.data_append, List.append_assoc]
    rfl
  · show encodeURIComponent n ++ "=" ++ encodeURIComponent v ++ "; " ++ "path" ++ ("=" ++ "/")
          ++ "; " ++ "expires" ++ ("=" ++ d.utcString) =
        encodeURIComponent n ++ "=" ++ encodeURIComponent v ++ "; path=/; expires="
          ++ d.utcString
    apply String.ext
    simp only [String.data_append, List.append_assoc]
    rfl
  · have hpk : ("path" == k) = false := by
      rw [beq_eq_false_iff_ne]
      exact fun hek => hk hek.symm
    by_cases hke : k = "expires"
    · subst hke
      show encodeURIComponent n ++ "=" ++ encodeURIComponent v ++ "; " ++ "path" ++ ("=" ++ "/")
            ++ "; " ++ "expires" ++ "" =
          encodeURIComponent n ++ "=" ++ encodeURIComponent v ++ "; path=/; " ++ "expires"
      apply String.ext
      simp only [String.data_append, List.append_assoc, List.append_nil]
      rfl
    · have h1 : setCookieString n v [(k, CookieVal.bool true)] =
          encodeURIComponent n ++ "=" ++ encodeURIComponent v ++ "; " ++ "path" ++ "=/"
            ++ "; " ++ k := by
        simp [setCookieString, objSpread, objAssign, serializeCookieVal, hpk, hke]
      rw [h1]
      apply String.ext
      simp only [String.data_append, List.append_assoc, List.append_nil]
      rfl

/-- C9 witness: concrete writes with a space in the value, a Date expiry
and a bare secure flag. -/
theorem C9_set_cookie_witness :
    setCookieString "sk" "a b" [] = "sk=a%20b; path=/" ∧
    setCookieString "sk" "a b"
        [("expires",
          CookieVal.date
            { utcString := "Tue, 01 Jan 2030 00:00:00 GMT",
              plainString := "Tue Jan 01 2030" })] =
      "sk=a%20b; path=/; expires=Tue, 01 Jan 2030 00:00:00 GMT" ∧
    setCookieString "sk" "a b" [("secure", CookieVal.bool true)] =
      "sk=a%20b; path=/; secure" :=
  C9_set_cookie "sk" "a b" "secure"
    { utcString := "Tue, 01 Jan 2030 00:00:00 GMT", plainString := "Tue Jan 01 2030" }
    (by decide)

end AdminApi
